import Mathlib

/-!
Shallow embedding of the api_yamdb repository (Django / Django REST Framework
application) for verification of its specification.

Source files embedded here:
- api_yamdb/users/models.py        (User model, ROLES enum)
- api_yamdb/api/permissions.py     (permission predicates)
- api_yamdb/api/views.py           (viewset permission dispatch, registration,
                                    token issuance, rating annotation)
- api_yamdb/api/serializers.py     (serializer validation and write logic)

Framework behaviour that the embedded code relies on is modelled explicitly
and documented at each definition: DRF BasePermission defaults, DRF
composition of permissions with the boolean operators, the two-phase DRF
permission check, SQL AVG over an empty set, serializer field validation,
and the Django ORM as explicit lists of rows.
-/

namespace YaMDb

/-- Embeds ROLES from users/models.py. The code compares the stored role
string against the enum member names, which are the strings user,
moderator and admin (ROLES.admin.name is the string admin). -/
def ROLES.user : String := "user"

/-- Name of the moderator member of the ROLES enum. -/
def ROLES.moderator : String := "moderator"

/-- Name of the admin member of the ROLES enum. -/
def ROLES.admin : String := "admin"

/-- Embeds the User model from users/models.py: a unique username, a unique
email, a role string (choices from ROLES, default user), the
confirmation_code string (default empty) and the is_superuser flag
inherited from AbstractUser. The primary key is modelled as the id field;
fields not used by any embedded code path (bio, first_name, last_name,
password) are omitted. -/
structure User where
  id : Nat
  username : String
  email : String
  role : String
  is_superuser : Bool
  confirmation_code : String
deriving DecidableEq, Repr

/-- HTTP methods. DRF SAFE_METHODS are GET, HEAD and OPTIONS. -/
inductive Method
  | get
  | head
  | options
  | post
  | put
  | patch
  | delete
deriving DecidableEq, Repr

/-- Membership of a method in rest_framework.permissions.SAFE_METHODS. -/
def Method.isSafe : Method → Bool
  | .get => true
  | .head => true
  | .options => true
  | _ => false

/-- A request object as far as the permission classes inspect it:
request.user is an Option User (none models AnonymousUser) and
request.method is the HTTP method. -/
structure Request where
  user : Option User
  method : Method
deriving DecidableEq, Repr

/-- Target object of an object-level permission check. Both Review and
Comment expose an author foreign key, which is the only attribute the
permission classes read. -/
structure AuthObj where
  author : User
deriving DecidableEq, Repr

/-- A DRF permission class, reduced to the two methods DRF calls. The
default field values embed rest_framework.permissions.BasePermission, whose
has_permission and has_object_permission both return True when a subclass
does not override them. -/
structure Permission where
  has_permission : Request → Bool := fun _ => true
  has_object_permission : Request → AuthObj → Bool := fun _ _ => true

/-- Embeds request.user.is_anonymous: true exactly when no authenticated
user is attached to the request. -/
def isAnonymous (u : Option User) : Bool := u.isNone

/-- Embeds the Django AnonymousUser attribute is_superuser, which is False;
for an authenticated user it reads the stored flag. -/
def requestIsSuperuser (u : Option User) : Bool :=
  match u with
  | none => false
  | some usr => usr.is_superuser

/-- Embeds the role comparison request.user.role == ROLES.<r>.name for a
possibly anonymous request user (anonymous has no role and the code guards
with is_anonymous before reading it). -/
def requestRoleIs (u : Option User) (r : String) : Bool :=
  match u with
  | none => false
  | some usr => usr.role == r

/-- Embeds obj.author == request.user. Django model equality compares the
primary keys of instances of the same model class; AnonymousUser is never
equal to a User instance, so an anonymous caller compares unequal. -/
def requestIsAuthorOf (u : Option User) (o : AuthObj) : Bool :=
  match u with
  | none => false
  | some usr => o.author.id == usr.id

/-- Embeds IsReadOnly from api/permissions.py: has_permission is
request.method in SAFE_METHODS; has_object_permission is the
BasePermission default (True). -/
def IsReadOnly : Permission :=
  { has_permission := fun rq => rq.method.isSafe }

/-- Embeds IsAdmin from api/permissions.py: both checks return False for an
anonymous user and otherwise compare request.user.role with
ROLES.admin.name. -/
def IsAdmin : Permission :=
  { has_permission := fun rq => requestRoleIs rq.user ROLES.admin
    has_object_permission := fun rq _ => requestRoleIs rq.user ROLES.admin }

/-- Embeds IsSuperuser from api/permissions.py: both checks return
request.user.is_superuser (False for AnonymousUser, which never raises). -/
def IsSuperuser : Permission :=
  { has_permission := fun rq => requestIsSuperuser rq.user
    has_object_permission := fun rq _ => requestIsSuperuser rq.user }

/-- Embeds IsModerator from api/permissions.py: both checks return False
for an anonymous user and otherwise compare request.user.role with
ROLES.moderator.name. -/
def IsModerator : Permission :=
  { has_permission := fun rq => requestRoleIs rq.user ROLES.moderator
    has_object_permission := fun rq _ => requestRoleIs rq.user ROLES.moderator }

/-- Embeds IsAuthor from api/permissions.py: it overrides only
has_object_permission (obj.author == request.user); has_permission is the
BasePermission default, so it returns True at the list level. -/
def IsAuthor : Permission :=
  { has_object_permission := fun rq o => requestIsAuthorOf rq.user o }

/-- Embeds rest_framework.permissions.IsAuthenticated: has_permission is
bool(request.user and request.user.is_authenticated); the object-level
check is the BasePermission default. -/
def IsAuthenticated : Permission :=
  { has_permission := fun rq => rq.user.isSome }

/-- Embeds the DRF AND combination produced by the Python operator between
permission classes: both composed checks are conjunctions. -/
def pAnd (p q : Permission) : Permission :=
  { has_permission := fun rq => p.has_permission rq && q.has_permission rq
    has_object_permission := fun rq o =>
      p.has_object_permission rq o && q.has_object_permission rq o }

/-- Embeds the DRF OR combination produced by the Python operator between
permission classes: has_permission is the disjunction, and
has_object_permission additionally requires the winning operand to pass its
own has_permission (rest_framework.permissions.OR). -/
def pOr (p q : Permission) : Permission :=
  { has_permission := fun rq => p.has_permission rq || q.has_permission rq
    has_object_permission := fun rq o =>
      (p.has_permission rq && p.has_object_permission rq o) ||
      (q.has_permission rq && q.has_object_permission rq o) }

/-- The DRF viewset actions relevant here. The constructor patchUpdate
stands for the DRF action named with the words partial and update joined by
an underscore (the PATCH verb); update is the PUT verb. -/
inductive VAction
  | list
  | retrieve
  | create
  | update
  | patchUpdate
  | destroy
deriving DecidableEq, Repr

/-- HTTP method that the DRF router maps to each viewset action. -/
def VAction.method : VAction → Method
  | .list => .get
  | .retrieve => .get
  | .create => .post
  | .update => .put
  | .patchUpdate => .patch
  | .destroy => .delete

/-- Embeds ReviewViewSet.get_permissions from api/views.py: for the PATCH
update action and destroy it returns IsAuthenticated AND (IsAuthor OR
IsModerator OR IsAdmin OR IsSuperuser); for every other action it returns
(IsAuthenticated AND IsAuthor) OR IsReadOnly. The Python boolean operators
associate to the left. -/
def reviewGetPermissions (a : VAction) : Permission :=
  if a = VAction.patchUpdate ∨ a = VAction.destroy then
    pAnd IsAuthenticated (pOr (pOr (pOr IsAuthor IsModerator) IsAdmin) IsSuperuser)
  else
    pOr (pAnd IsAuthenticated IsAuthor) IsReadOnly

/-- Embeds CommentViewSet.get_permissions from api/views.py, which is
textually identical to ReviewViewSet.get_permissions. -/
def commentGetPermissions (a : VAction) : Permission :=
  if a = VAction.patchUpdate ∨ a = VAction.destroy then
    pAnd IsAuthenticated (pOr (pOr (pOr IsAuthor IsModerator) IsAdmin) IsSuperuser)
  else
    pOr (pAnd IsAuthenticated IsAuthor) IsReadOnly

/-- Embeds the DRF permission check for a detail action: the dispatcher
runs check_permissions (has_permission of every returned permission) and
get_object then runs check_object_permissions (has_object_permission of
every returned permission); the action is allowed only if both pass. -/
def grantObject (p : Permission) (u : Option User) (a : VAction) (o : AuthObj) : Bool :=
  p.has_permission ⟨u, a.method⟩ && p.has_object_permission ⟨u, a.method⟩ o

/-- Embeds the Genre model referenced by the serializers: a name and a
unique slug, with an id primary key. SlugRelatedField on TitleSerializer
resolves each submitted slug to one of these instances. -/
structure Genre where
  id : Nat
  name : String
  slug : String
deriving DecidableEq, Repr

/-- Embeds the Title model as the serializers read and write it: id, name,
year, description and a category foreign key (modelled by the primary key
of the resolved Category row). -/
structure Title where
  id : Nat
  name : String
  year : Int
  description : String
  category : Nat
deriving DecidableEq, Repr

/-- Embeds the GenreTitle join model: one row pairs a genre primary key
with a title primary key. -/
structure GenreTitle where
  genre : Nat
  title : Nat
deriving DecidableEq, Repr

/-- The catalog tables touched by TitleSerializer.update: the Genre table,
the Title table and the GenreTitle join table, each as a list of rows. -/
structure CatalogState where
  genres : List Genre
  titles : List Title
  genreTitles : List GenreTitle
deriving DecidableEq, Repr

/-- Embeds the validated_data dictionary that DRF hands to
TitleSerializer.update for a PATCH request: each writable field is present
exactly when the payload supplied it. The genre entry, when present, is the
list of Genre instances resolved by SlugRelatedField (possibly empty); the
category entry is the resolved Category primary key. -/
structure TitleValidatedData where
  name : Option String := none
  year : Option Int := none
  description : Option String := none
  category : Option Nat := none
  genre : Option (List Genre) := none
deriving DecidableEq, Repr

/-- Embeds the setattr loop of TitleSerializer.update over the non-genre
entries of validated_data: each present field overwrites the instance
attribute, absent fields keep their current value. -/
def applySetattr (inst : Title) (d : TitleValidatedData) : Title :=
  { inst with
    name := d.name.getD inst.name
    year := d.year.getD inst.year
    description := d.description.getD inst.description
    category := d.category.getD inst.category }

/-- Result of running TitleSerializer.update. The ok constructor carries
the database state after instance.save() together with the returned
instance. The typeError constructor embeds the raise inside the genre
loop: the call Genre.objects.get(**genre) spreads a Genre model instance
as keyword arguments, and a model instance is not a mapping, so the first
iteration raises TypeError; it carries the state at the raise point, after
the join-row deletion already executed and before instance.save(). -/
inductive UpdateOutcome
  | ok (st : CatalogState) (inst : Title)
  | typeError (st : CatalogState)
deriving DecidableEq, Repr

/-- Embeds TitleSerializer.update from api/serializers.py (lines 103-120):
pop the genre entry (defaulting to the empty list when the key is absent),
apply the remaining fields with setattr, delete every GenreTitle row whose
title is the instance, then re-insert one row per supplied genre and save.
The re-insertion loop raises TypeError on its first iteration (see
UpdateOutcome), so a non-empty genre list never reaches the insert or the
save. -/
def titleUpdate (st : CatalogState) (inst : Title) (d : TitleValidatedData) : UpdateOutcome :=
  let genres := d.genre.getD []
  let inst1 := applySetattr inst d
  let afterDelete : CatalogState :=
    { st with genreTitles := st.genreTitles.filter (fun gt => gt.title != inst.id) }
  match genres with
  | [] =>
      UpdateOutcome.ok
        { afterDelete with
            titles := afterDelete.titles.map (fun t => if t.id = inst.id then inst1 else t) }
        inst1
  | _ :: _ => UpdateOutcome.typeError afterDelete

/-- The GenreTitle rows currently associated with a given title. -/
def joinsFor (st : CatalogState) (titleId : Nat) : List GenreTitle :=
  st.genreTitles.filter (fun gt => gt.title == titleId)

/-- The database state an update run leaves behind, whether it returned
normally or raised inside the genre loop. -/
def UpdateOutcome.state : UpdateOutcome → CatalogState
  | .ok st _ => st
  | .typeError st => st

/-- Embeds the Review model as the serializers read and write it: id,
author foreign key, title foreign key, text and the integer score. -/
structure Review where
  id : Nat
  author : Nat
  title : Nat
  text : String
  score : Nat
deriving DecidableEq, Repr

/-- Validation failures ReviewSerializer can report on create: the score
field bounds (IntegerField with min_value 1 and max_value 10) and the
UniqueTogetherValidator over the author and title fields. -/
inductive ReviewError
  | scoreOutOfRange
  | duplicate
deriving DecidableEq, Repr

/-- Embeds creating a review through ReviewSerializer: DRF runs the field
validators first (score bounds), then the class-level
UniqueTogetherValidator, which rejects the payload when the queryset
already holds a row with the same author and title; only a payload passing
both is saved, by appending the row. The pair returned is the validation
outcome and the review table afterwards, unchanged on any failure because
is_valid(raise_exception=True) aborts before save. -/
def reviewCreate (existing : List Review) (nr : Review) : Option ReviewError × List Review :=
  if ¬ (1 ≤ nr.score ∧ nr.score ≤ 10) then
    (some ReviewError.scoreOutOfRange, existing)
  else if existing.any (fun r => r.author == nr.author && r.title == nr.title) then
    (some ReviewError.duplicate, existing)
  else
    (none, existing ++ [nr])

/-- The invariant of claim C8: no two rows of the review table share the
same author and title. -/
def atMostOneReviewPerPair (rs : List Review) : Prop :=
  rs.Pairwise (fun r s => ¬ (r.author = s.author ∧ r.title = s.title))

/-- The scores of all reviews referencing a given title, in table order:
the multiset that Avg aggregates over through the reviews related name. -/
def titleScores (reviews : List Review) (titleId : Nat) : List Nat :=
  (reviews.filter (fun r => r.title == titleId)).map (fun r => r.score)

/-- Embeds the annotation Avg applied to the related scores in
TitleViewSet.queryset (api/views.py line 155): SQL AVG returns NULL over
the empty set and otherwise the exact arithmetic mean, as a rational. -/
def avgScore (scores : List Nat) : Option ℚ :=
  if scores = [] then none
  else some ((scores.sum : ℚ) / (scores.length : ℚ))

/-- Embeds the Python int() conversion that
rest_framework.fields.IntegerField.to_representation applies to the
aggregate value: truncation toward zero, Int.tdiv of numerator by
denominator. -/
def pyInt (q : ℚ) : Int := Int.tdiv q.num q.den

/-- Embeds the rating field of ReadOnlyTitleSerializer
(serializers.IntegerField()): a None attribute serializes to null because
Serializer.to_representation short-circuits None attributes before calling
the field, and any other value goes through int(). -/
def serializeRating (r : Option ℚ) : Option Int := r.map pyInt

/-- The rating reported for a title on the list and detail endpoints: the
Avg annotation of its review scores rendered by ReadOnlyTitleSerializer. -/
def reportedRating (reviews : List Review) (titleId : Nat) : Option Int :=
  serializeRating (avgScore (titleScores reviews titleId))

/-- Embeds request.data for the registration endpoint: each key is present
exactly when the JSON body supplied it; reading an absent key with
request.data[key] raises KeyError. -/
structure RegisterRequest where
  username : Option String
  email : Option String
deriving DecidableEq, Repr

/-- One outbound message of send_mail, reduced to what the claims observe:
the recipient address and the confirmation code carried in the body. -/
structure Mail where
  recipient : String
  code : String
deriving DecidableEq, Repr

/-- Responses of RegisterViewSet.create. ok carries the identity fields
echoed with HTTP 200 (request.data in the resend branch, serializer.data in
the create branch, the same two fields either way); badRequest is the
HTTP 400 raised by is_valid(raise_exception=True); serverError is the
uncaught exception when send_mail fails inside perform_create, after the
new row was already saved. -/
inductive RegResponse
  | ok (username email : String)
  | badRequest
  | serverError
deriving DecidableEq, Repr

/-- Embeds the queryset User.objects.filter(username=un, email=em): the
rows matching both fields, in table order. -/
def exactMatches (st : List User) (un em : String) : List User :=
  st.filter (fun u => u.username == un && u.email == em)

/-- Embeds the UniqueValidator check that ModelSerializer generates for the
unique username column: does any row hold this username. -/
def usernameTaken (st : List User) (un : String) : Bool :=
  st.any (fun u => u.username == un)

/-- Embeds the UniqueValidator check that ModelSerializer generates for the
unique email column: does any row hold this email. -/
def emailTaken (st : List User) (em : String) : Bool :=
  st.any (fun u => u.email == em)

/-- A nonempty run of ASCII alphanumerics; building block of the email
format model below. -/
def alphanumeric (cs : List Char) : Bool :=
  !cs.isEmpty && cs.all (fun c => c.isAlpha || c.isDigit)

/-- Framework model of the EmailField validation, as a conservative
sufficient condition: the whole address is at most 254 characters (the
EmailField max_length that ModelSerializer carries over from the model
column), and it is a nonempty alphanumeric local part, an @ sign, and two
nonempty alphanumeric domain labels of at most 63 characters each (the
label bound of the EmailValidator domain regex) joined by a dot. Django
accepts every address of this shape; addresses outside it are rejected by
the embedding even where Django would accept them, which only strengthens
the hypotheses of the theorems below, and every claim is evaluated on
addresses of this shape, where the two validators agree. -/
def emailValid (em : String) : Bool :=
  em.length ≤ 254 &&
  match em.toList.splitOn '@' with
  | [lpart, domain] =>
      match domain.splitOn '.' with
      | [d1, d2] =>
          alphanumeric lpart &&
          alphanumeric d1 && d1.length ≤ 63 &&
          alphanumeric d2 && d2.length ≤ 63
      | _ => false
  | _ => false

/-- Embeds RegisterSerializer.is_valid for a payload holding both keys:
the username CharField of the model has max_length 25 and DRF rejects a
blank value; validate_username rejects the reserved value me; the
generated UniqueValidator of each unique column rejects a taken username
or email (this also subsumes the explicit UniqueTogetherValidator over the
pair, since a pair match makes both columns taken); the EmailField format
check is modelled by emailValid. -/
def registerValid (st : List User) (un em : String) : Bool :=
  un != "" && un.length ≤ 25 && un != "me" && emailValid em &&
  !usernameTaken st un && !emailTaken st em

/-- Embeds the try block of RegisterViewSet.create (api/views.py lines
57-67). Returns none when any exception escapes the block: KeyError from
request.data when a key is missing, IndexError from indexing [0] on an
empty queryset when no row matches both fields, and the mail backend
exception when send_mail fails (emailOk false). Otherwise it returns the
HTTP 200 response echoing request.data together with the one message sent,
carrying the stored confirmation code of the first matching row. -/
def resendBranch (st : List User) (rq : RegisterRequest) (emailOk : Bool) :
    Option (RegResponse × List Mail) :=
  match rq.username, rq.email with
  | some un, some em =>
      match (exactMatches st un em).head? with
      | some user =>
          if emailOk then some (RegResponse.ok un em, [⟨em, user.confirmation_code⟩])
          else none
      | none => none
  | _, _ => none

/-- The row that serializer.save(confirmation_code=...) inserts in
perform_create: identity fields from the payload, the freshly generated
confirmation code, and the model defaults role user and no superuser
flag (a registered user starts unconfirmed). -/
def mkNewUser (id : Nat) (un em code : String) : User :=
  { id := id
    username := un
    email := em
    role := ROLES.user
    is_superuser := false
    confirmation_code := code }

/-- Embeds the except block of RegisterViewSet.create: validate the payload
with RegisterSerializer and on success run perform_create, which saves the
new row with a fresh confirmation code (the uuid4 value, passed in as
freshCode) and then mails the code. A send_mail failure here propagates
out after the save, so the row persists while the request errors. -/
def registerSerializerPath (st : List User) (rq : RegisterRequest) (emailOk : Bool)
    (freshCode : String) (freshId : Nat) : RegResponse × List User × List Mail :=
  match rq.username, rq.email with
  | some un, some em =>
      if registerValid st un em then
        let newUser := mkNewUser freshId un em freshCode
        if emailOk then (RegResponse.ok un em, st ++ [newUser], [⟨em, freshCode⟩])
        else (RegResponse.serverError, st ++ [newUser], [])
      else (RegResponse.badRequest, st, [])
  | _, _ => (RegResponse.badRequest, st, [])

/-- Embeds RegisterViewSet.create (api/views.py lines 54-75): run the try
block; on any exception fall through to the serializer path. Returns the
response, the user table afterwards and the messages sent. -/
def registerCreate (st : List User) (rq : RegisterRequest) (emailOk : Bool)
    (freshCode : String) (freshId : Nat) : RegResponse × List User × List Mail :=
  match resendBranch st rq emailOk with
  | some (resp, mails) => (resp, st, mails)
  | none => registerSerializerPath st rq emailOk freshCode freshId

/-- Embeds request.data for the token endpoint; both fields are declared
required=True on ObtainTokenSerializer, so an absent key fails field
validation before validate() runs. -/
structure TokenRequest where
  username : Option String
  confirmation_code : Option String
deriving DecidableEq, Repr

/-- Responses of ObtainTokenView.post: ok carries the access token, which
RefreshToken.for_user binds to the user identity and which we model by the
user primary key; badRequest is the ValidationError (missing field or
wrong code); notFound is the Http404 of get_object_or_404. -/
inductive TokenResponse
  | ok (userId : Nat)
  | badRequest
  | notFound
deriving DecidableEq, Repr

/-- Embeds get_object_or_404(User, username=un): the first row with this
username, none when there is no such row (username is a unique column, so
at most one row matches). -/
def findByUsername (st : List User) (un : String) : Option User :=
  st.find? (fun u => u.username == un)

/-- Embeds ObtainTokenSerializer.validate plus ObtainTokenView.post: field
validation requires both keys; validate() looks the user up by username
(Http404 when absent) and raises ValidationError unless the supplied code
equals the stored confirmation_code; on success the view issues the token
for that user. The view performs the same lookup a second time with the
same result, so it is embedded once. -/
def obtainToken (st : List User) (rq : TokenRequest) : TokenResponse :=
  match rq.username, rq.confirmation_code with
  | some un, some code =>
      match findByUsername st un with
      | none => TokenResponse.notFound
      | some user =>
          if code == user.confirmation_code then TokenResponse.ok user.id
          else TokenResponse.badRequest
  | _, _ => TokenResponse.badRequest

/-- Embeds the full request handler ObtainTokenView.post as a state
transformer on the user table: the handler contains no save call and no
delete call on any model, so the table it leaves behind is the table it
received. -/
def obtainTokenPost (st : List User) (rq : TokenRequest) : TokenResponse × List User :=
  (obtainToken st rq, st)

/-- Concrete user with the default role, for witnesses. -/
def plainUser : User :=
  { id := 1, username := "plain", email := "plain@yamdb.io", role := ROLES.user,
    is_superuser := false, confirmation_code := "code-plain" }

/-- Concrete moderator, for witnesses and counterexamples. -/
def modUser : User :=
  { id := 2, username := "mod", email := "mod@yamdb.io", role := ROLES.moderator,
    is_superuser := false, confirmation_code := "code-mod" }

/-- Concrete author of the target object, for witnesses. -/
def authorUser : User :=
  { id := 3, username := "writer", email := "writer@yamdb.io", role := ROLES.user,
    is_superuser := false, confirmation_code := "code-writer" }

/-- Target review or comment object authored by authorUser. -/
def reviewObj : AuthObj := { author := authorUser }

/-- Concrete genre row, for the catalog witnesses. -/
def genreDrama : Genre := { id := 1, name := "Drama", slug := "drama" }

/-- Concrete title row, for the catalog witnesses. -/
def title0 : Title :=
  { id := 10, name := "Hamlet", year := 1600, description := "play", category := 5 }

/-- Concrete catalog in which title0 is associated with genreDrama. -/
def catalog0 : CatalogState :=
  { genres := [genreDrama], titles := [title0], genreTitles := [{ genre := 1, title := 10 }] }

/-- Update payload that renames the title and omits the genre key. -/
def patchNameOnly : TitleValidatedData := { name := some "Hamlet II" }

/-- Update payload carrying a non-empty resolved genre list. -/
def patchWithGenre : TitleValidatedData := { genre := some [genreDrama] }

/-- Two reviews on title 7 by different authors with scores 1 and 2. -/
def reviews0 : List Review :=
  [{ id := 1, author := 1, title := 7, text := "meh", score := 1 },
   { id := 2, author := 2, title := 7, text := "bad", score := 2 }]

/-- A review on title 7 by an author who has not reviewed it yet. -/
def reviewByOther : Review :=
  { id := 3, author := 9, title := 7, text := "good", score := 10 }

/-- Claim C6 counterexample: evaluated without a target object, IsAuthor
does not return false; its list-level check, inherited from
BasePermission, returns true for an authenticated caller (here on a
DELETE request). -/
theorem isauthor_list_level_cex :
    IsAuthor.has_permission { user := some plainUser, method := Method.delete } = true := rfl

/-- Claim C6 (amended): the object-level check of IsAuthor returns true iff
the target author equals the caller, and evaluated without a target object
the predicate returns true, the BasePermission default, not false. -/
theorem isauthor_characterized (u : Option User) (m : Method) (o : AuthObj) :
    (IsAuthor.has_object_permission { user := u, method := m } o = true
        ↔ ∃ usr, u = some usr ∧ o.author.id = usr.id)
  ∧ IsAuthor.has_permission { user := u, method := m } = true := by
  refine ⟨?_, rfl⟩
  cases u with
  | none => simp [IsAuthor, requestIsAuthorOf]
  | some usr => simp [IsAuthor, requestIsAuthorOf]

/-- Claim C6 instance: the amended characterization applied at a concrete
caller and object. -/
theorem isauthor_characterized_witness :
    IsAuthor.has_permission { user := some plainUser, method := Method.get } = true :=
  (isauthor_characterized (some plainUser) Method.get reviewObj).2

/-- Claim C7 counterexample: an anonymous caller does not fail every
identity-based predicate at the list level; IsAuthor has no list-level
override, so its inherited check returns true even for an anonymous
caller. -/
theorem anonymous_isauthor_list_level_cex :
    IsAuthor.has_permission { user := none, method := Method.post } = true := rfl

/-- Claim C7 (amended): for an anonymous caller, IsAdmin, IsSuperuser and
IsModerator evaluate to false at both levels and IsAuthor evaluates to
false at the object level, all as total functions (never raising); the
list-level check of IsAuthor, inherited from BasePermission, returns
true. -/
theorem anonymous_predicates_false (m : Method) (o : AuthObj) :
    IsAdmin.has_permission { user := none, method := m } = false
  ∧ IsAdmin.has_object_permission { user := none, method := m } o = false
  ∧ IsSuperuser.has_permission { user := none, method := m } = false
  ∧ IsSuperuser.has_object_permission { user := none, method := m } o = false
  ∧ IsModerator.has_permission { user := none, method := m } = false
  ∧ IsModerator.has_object_permission { user := none, method := m } o = false
  ∧ IsAuthor.has_object_permission { user := none, method := m } o = false
  ∧ IsAuthor.has_permission { user := none, method := m } = true :=
  ⟨rfl, rfl, rfl, rfl, rfl, rfl, rfl, rfl⟩

/-- Claim C2 counterexample: the full-update action (PUT) on a review is
denied to an authenticated moderator who is not the author, although the
claim grants moderators every update action; only the PATCH update and
destroy actions use the moderation policy. -/
theorem review_put_update_moderator_denied_cex :
    grantObject (reviewGetPermissions VAction.update) (some modUser) VAction.update reviewObj
      = false ∧ modUser.role = ROLES.moderator := by decide

/-- Claim C2 (amended): for the PATCH update and destroy actions on
reviews and comments, permission is granted iff the caller is
authenticated and is the author of the object, a moderator, an admin, or a
superuser; the full-update (PUT) action instead falls under the default
branch of get_permissions and requires the caller to be the authenticated
author. -/
theorem review_comment_moderation_policy (u : Option User) (o : AuthObj) :
    (∀ a, a = VAction.patchUpdate ∨ a = VAction.destroy →
        grantObject (reviewGetPermissions a) u a o
            = (u.isSome && (requestIsAuthorOf u o || requestRoleIs u ROLES.moderator
                || requestRoleIs u ROLES.admin || requestIsSuperuser u))
          ∧ grantObject (commentGetPermissions a) u a o
            = (u.isSome && (requestIsAuthorOf u o || requestRoleIs u ROLES.moderator
                || requestRoleIs u ROLES.admin || requestIsSuperuser u)))
  ∧ grantObject (reviewGetPermissions VAction.update) u VAction.update o
      = (u.isSome && requestIsAuthorOf u o)
  ∧ grantObject (commentGetPermissions VAction.update) u VAction.update o
      = (u.isSome && requestIsAuthorOf u o) := by
  refine ⟨?_, ?_, ?_⟩
  · intro a h
    rcases h with rfl | rfl <;>
      constructor <;>
        cases u <;>
          simp [grantObject, reviewGetPermissions, commentGetPermissions, pAnd, pOr,
            IsAuthenticated, IsAuthor, IsModerator, IsAdmin, IsSuperuser, IsReadOnly,
            VAction.method, Method.isSafe, requestIsAuthorOf, requestRoleIs,
            requestIsSuperuser, Bool.and_self, Bool.or_assoc]
  · cases u <;>
      simp [grantObject, reviewGetPermissions, pAnd, pOr, IsAuthenticated, IsAuthor,
        IsReadOnly, VAction.method, Method.isSafe, requestIsAuthorOf]
  · cases u <;>
      simp [grantObject, commentGetPermissions, pAnd, pOr, IsAuthenticated, IsAuthor,
        IsReadOnly, VAction.method, Method.isSafe, requestIsAuthorOf]

/-- Claim C2 instance: the moderation policy evaluated for a concrete
moderator on the PATCH update action of a review authored by someone
else. -/
theorem review_comment_moderation_policy_witness :
    grantObject (reviewGetPermissions VAction.patchUpdate) (some modUser)
        VAction.patchUpdate reviewObj
      = ((some modUser).isSome && (requestIsAuthorOf (some modUser) reviewObj
          || requestRoleIs (some modUser) ROLES.moderator
          || requestRoleIs (some modUser) ROLES.admin
          || requestIsSuperuser (some modUser))) :=
  ((review_comment_moderation_policy (some modUser) reviewObj).1
    VAction.patchUpdate (Or.inl rfl)).1

/-- Helper: filtering the rows of another title out of a list and then
selecting the rows of that title yields nothing. -/
theorem filter_ne_then_eq_nil (l : List GenreTitle) (i : Nat) :
    (l.filter (fun gt => gt.title != i)).filter (fun gt => gt.title == i) = [] := by
  rw [List.filter_filter]
  refine List.filter_eq_nil_iff.2 ?_
  intro gt _
  cases h : (gt.title == i) with
  | false => simp [h]
  | true =>
      simp [h]
      exact beq_iff_eq.1 h

/-- Helper: deleting the rows of one title does not change the rows
selected for a different title. -/
theorem filter_ne_then_other (l : List GenreTitle) (i tid : Nat) (h : tid ≠ i) :
    (l.filter (fun gt => gt.title != i)).filter (fun gt => gt.title == tid)
      = l.filter (fun gt => gt.title == tid) := by
  rw [List.filter_filter]
  refine List.filter_congr ?_
  intro gt _
  cases hgt : (gt.title == tid) with
  | false => simp [hgt]
  | true =>
      have : gt.title = tid := by exact beq_iff_eq.1 hgt
      simp [hgt, bne_iff_ne, this, h]

/-- Claim C1 counterexample: in catalog0 the title is associated with one
genre; an update whose payload omits the genre key still deletes that
association (the claim says it is left unchanged), and an update supplying
a non-empty genre list raises TypeError instead of inserting fresh join
rows. -/
theorem title_update_omitted_genre_cex :
    joinsFor catalog0 title0.id ≠ []
  ∧ patchNameOnly.genre = none
  ∧ titleUpdate catalog0 title0 patchNameOnly
      = UpdateOutcome.ok
          { genres := [genreDrama]
            titles := [{ title0 with name := "Hamlet II" }]
            genreTitles := [] }
          { title0 with name := "Hamlet II" }
  ∧ titleUpdate catalog0 title0 patchWithGenre
      = UpdateOutcome.typeError
          { genres := [genreDrama], titles := [title0], genreTitles := [] } := by
  decide

/-- Claim C1 (amended): every run of TitleSerializer.update first deletes
every GenreTitle row of the title, whether or not the payload holds a
genre key. When the genre key is absent or maps to the empty list, the
remaining fields are applied to the title record and saved. When a
non-empty genre list is supplied, the re-insertion loop raises TypeError
on its first iteration (it spreads a Genre model instance as keyword
arguments of Genre.objects.get), so no fresh join row is inserted and the
field changes are not saved. In every case the resulting state holds no
join row for the title and the join rows of other titles are
untouched. -/
theorem title_update_characterized (st : CatalogState) (inst : Title) (d : TitleValidatedData) :
    ((d.genre = none ∨ d.genre = some []) →
        titleUpdate st inst d
          = UpdateOutcome.ok
              { genres := st.genres
                titles := st.titles.map (fun t => if t.id = inst.id then applySetattr inst d else t)
                genreTitles := st.genreTitles.filter (fun gt => gt.title != inst.id) }
              (applySetattr inst d))
  ∧ (∀ g gs, d.genre = some (g :: gs) →
        titleUpdate st inst d
          = UpdateOutcome.typeError
              { genres := st.genres
                titles := st.titles
                genreTitles := st.genreTitles.filter (fun gt => gt.title != inst.id) })
  ∧ joinsFor (titleUpdate st inst d).state inst.id = []
  ∧ (∀ tid, tid ≠ inst.id → joinsFor (titleUpdate st inst d).state tid = joinsFor st tid) := by
  refine ⟨?_, ?_, ?_, ?_⟩
  · rintro (h | h) <;> simp [titleUpdate, h]
  · intro g gs h
    simp [titleUpdate, h]
  · match hd : d.genre with
    | none =>
        simp [titleUpdate, hd, UpdateOutcome.state, joinsFor, filter_ne_then_eq_nil]
    | some [] =>
        simp [titleUpdate, hd, UpdateOutcome.state, joinsFor, filter_ne_then_eq_nil]
    | some (g :: gs) =>
        simp [titleUpdate, hd, UpdateOutcome.state, joinsFor, filter_ne_then_eq_nil]
  · intro tid htid
    match hd : d.genre with
    | none =>
        simp [titleUpdate, hd, UpdateOutcome.state, joinsFor, filter_ne_then_other _ _ _ htid]
    | some [] =>
        simp [titleUpdate, hd, UpdateOutcome.state, joinsFor, filter_ne_then_other _ _ _ htid]
    | some (g :: gs) =>
        simp [titleUpdate, hd, UpdateOutcome.state, joinsFor, filter_ne_then_other _ _ _ htid]

/-- Claim C1 instance: the amended characterization applied to catalog0
with the rename-only payload. -/
theorem title_update_characterized_witness :
    titleUpdate catalog0 title0 patchNameOnly
      = UpdateOutcome.ok
          { genres := catalog0.genres
            titles := catalog0.titles.map
              (fun t => if t.id = title0.id then applySetattr title0 patchNameOnly else t)
            genreTitles := catalog0.genreTitles.filter (fun gt => gt.title != title0.id) }
          (applySetattr title0 patchNameOnly) :=
  (title_update_characterized catalog0 title0 patchNameOnly).1 (Or.inl rfl)

/-- Helper: on a nonnegative rational, Python int() truncation agrees with
the floor. -/
theorem pyInt_eq_floor (q : ℚ) (h : 0 ≤ q) : pyInt q = ⌊q⌋ := by
  unfold pyInt
  rw [Int.tdiv_eq_ediv (Rat.num_nonneg.2 h) (Int.ofNat_nonneg _)]
  rw [Rat.floor_def]

/-- Claim C3 counterexample: a title whose two reviews score 1 and 2 has
arithmetic mean 3/2, but the endpoints report rating 1, because the
IntegerField declared for the rating of ReadOnlyTitleSerializer applies
int() to the aggregate; the reported value is not the mean. -/
theorem rating_truncates_mean_cex :
    reportedRating reviews0 7 = some 1
  ∧ avgScore (titleScores reviews0 7) = some ((3 : ℚ) / 2)
  ∧ ((1 : ℚ) ≠ (3 : ℚ) / 2) := by
  have hs : titleScores reviews0 7 = [1, 2] := by decide
  have hm : avgScore (titleScores reviews0 7) = some ((3 : ℚ) / 2) := by
    rw [avgScore, hs, if_neg (by decide : ¬([1, 2] : List ℕ) = [])]
    norm_num
  refine ⟨?_, hm, by norm_num⟩
  unfold reportedRating serializeRating
  rw [hm, Option.map_some', pyInt_eq_floor _ (by norm_num)]
  norm_num

/-- Claim C3 (amended): a title with zero reviews reports a null rating,
and a title with at least one review reports the floor of the arithmetic
mean of its review scores (int() applied to the nonnegative SQL average),
which equals the mean itself only when the mean is an integer. -/
theorem rating_null_or_floor_mean (reviews : List Review) (tid : Nat) :
    (titleScores reviews tid = [] → reportedRating reviews tid = none)
  ∧ (titleScores reviews tid ≠ [] →
      reportedRating reviews tid
        = some ⌊((titleScores reviews tid).sum : ℚ) / ((titleScores reviews tid).length : ℚ)⌋) := by
  constructor
  · intro h
    simp [reportedRating, serializeRating, avgScore, h]
  · intro h
    have hq : (0 : ℚ) ≤ ((titleScores reviews tid).sum : ℚ) / ((titleScores reviews tid).length : ℚ) :=
      div_nonneg (by positivity) (by positivity)
    unfold reportedRating serializeRating
    rw [avgScore, if_neg h, Option.map_some', pyInt_eq_floor _ hq]

/-- Claim C3 instance: the amended statement applied to the two concrete
reviews on title 7. -/
theorem rating_null_or_floor_mean_witness :
    reportedRating reviews0 7
      = some ⌊((titleScores reviews0 7).sum : ℚ) / ((titleScores reviews0 7).length : ℚ)⌋ :=
  (rating_null_or_floor_mean reviews0 7).2 (by decide)

/-- Claim C10: every exception of the resend branch is caught. A missing
username or email key (KeyError) and a mail delivery failure after a
successful lookup both make the branch yield nothing; whenever the branch
yields nothing, create falls through to the validate-and-create path; and
whenever the branch does yield a response, that response is a 200 echo,
never an error. -/
theorem register_resend_exceptions_caught (st : List User) (rq : RegisterRequest)
    (emailOk : Bool) (freshCode : String) (freshId : Nat) :
    (rq.username = none ∨ rq.email = none → resendBranch st rq emailOk = none)
  ∧ (∀ un em u rest, rq = { username := some un, email := some em } →
        exactMatches st un em = u :: rest → emailOk = false →
        resendBranch st rq emailOk = none)
  ∧ (resendBranch st rq emailOk = none →
        registerCreate st rq emailOk freshCode freshId
          = registerSerializerPath st rq emailOk freshCode freshId)
  ∧ (∀ resp mails, resendBranch st rq emailOk = some (resp, mails) →
        ∃ un em, resp = RegResponse.ok un em) := by
  refine ⟨?_, ?_, ?_, ?_⟩
  · rcases rq with ⟨ru, re⟩
    rintro (h | h) <;> subst h
    · cases re <;> simp [resendBranch]
    · cases ru <;> simp [resendBranch]
  · intro un em u rest hrq hm hmail
    subst hrq
    subst hmail
    simp [resendBranch, hm]
  · intro h
    simp [registerCreate, h]
  · intro resp mails h
    rcases rq with ⟨ru, re⟩
    cases ru with
    | none => simp [resendBranch] at h
    | some un =>
        cases re with
        | none => simp [resendBranch] at h
        | some em =>
            simp only [resendBranch] at h
            cases hx : (exactMatches st un em).head? with
            | none => rw [hx] at h; simp at h
            | some user =>
                rw [hx] at h
                cases emailOk with
                | false => simp at h
                | true =>
                    simp at h
                    exact ⟨un, em, h.1.symm⟩

/-- Claim C10 instance: the caught-exception statement applied to a
payload missing its username key. -/
theorem register_resend_exceptions_caught_witness :
    resendBranch [] { username := none, email := some "a@b.c" } true = none :=
  (register_resend_exceptions_caught [] { username := none, email := some "a@b.c" }
      true "fresh" 1).1 (Or.inl rfl)

/-- Claim C5: a token request holding both fields is answered not-found
when no user holds the username, with a validation error when the supplied
code differs from the stored confirmation code, and with the access token
bound to the user (modelled by the user primary key) when the codes match
exactly. -/
theorem obtain_token_cases (st : List User) (un code : String) :
    (findByUsername st un = none →
        obtainToken st { username := some un, confirmation_code := some code }
          = TokenResponse.notFound)
  ∧ (∀ u, findByUsername st un = some u → code ≠ u.confirmation_code →
        obtainToken st { username := some un, confirmation_code := some code }
          = TokenResponse.badRequest)
  ∧ (∀ u, findByUsername st un = some u → code = u.confirmation_code →
        obtainToken st { username := some un, confirmation_code := some code }
          = TokenResponse.ok u.id) := by
  refine ⟨?_, ?_, ?_⟩
  · intro h
    simp [obtainToken, h]
  · intro u hu hc
    simp [obtainToken, hu, hc]
  · intro u hu hc
    simp [obtainToken, hu, hc]

/-- Claim C5 instance: the three-way case statement applied to a table
holding one user with a matching code. -/
theorem obtain_token_cases_witness :
    obtainToken [plainUser] { username := some "plain", confirmation_code := some "code-plain" }
      = TokenResponse.ok plainUser.id :=
  (obtain_token_cases [plainUser] "plain" "code-plain").2.2 plainUser (by decide) (by decide)

/-- Claim C9: the token endpoint performs no write, so a successful
issuance leaves the user table, and with it every stored confirmation
code, unchanged, and repeating the same request against the resulting
table succeeds with the same token. -/
theorem token_reuse_allowed (st : List User) (rq : TokenRequest) (uid : Nat)
    (h : (obtainTokenPost st rq).1 = TokenResponse.ok uid) :
    (obtainTokenPost st rq).2 = st
  ∧ (obtainTokenPost ((obtainTokenPost st rq).2) rq).1 = TokenResponse.ok uid :=
  ⟨rfl, h⟩

/-- Claim C9 instance: token reuse for the concrete user plainUser. -/
theorem token_reuse_allowed_witness :
    (obtainTokenPost [plainUser]
        { username := some "plain", confirmation_code := some "code-plain" }).2 = [plainUser]
  ∧ (obtainTokenPost
        ((obtainTokenPost [plainUser]
            { username := some "plain", confirmation_code := some "code-plain" }).2)
        { username := some "plain", confirmation_code := some "code-plain" }).1
      = TokenResponse.ok plainUser.id :=
  token_reuse_allowed [plainUser]
    { username := some "plain", confirmation_code := some "code-plain" }
    plainUser.id (by decide)

/-- Claim C8: creating a second review by the same author on the same
title fails validation and leaves the review table unchanged; a review
whose score is in range by an author with no prior review of the title is
appended; and the at-most-one-review-per-pair invariant is preserved by
every create. -/
theorem review_unique_per_author_title (existing : List Review) (nr : Review) :
    ((∃ r ∈ existing, r.author = nr.author ∧ r.title = nr.title) →
        (reviewCreate existing nr).1 ≠ none ∧ (reviewCreate existing nr).2 = existing)
  ∧ (1 ≤ nr.score → nr.score ≤ 10 →
      (∀ r ∈ existing, ¬(r.author = nr.author ∧ r.title = nr.title)) →
        reviewCreate existing nr = (none, existing ++ [nr]))
  ∧ (atMostOneReviewPerPair existing → atMostOneReviewPerPair (reviewCreate existing nr).2) := by
  refine ⟨?_, ?_, ?_⟩
  · rintro ⟨r, hr, ha, ht⟩
    have hany : existing.any (fun s => s.author == nr.author && s.title == nr.title) = true :=
      List.any_eq_true.2 ⟨r, hr, by simp [ha, ht]⟩
    by_cases hs : 1 ≤ nr.score ∧ nr.score ≤ 10 <;>
      simp [reviewCreate, hs, hany]
  · intro h1 h2 h3
    have hany : existing.any (fun s => s.author == nr.author && s.title == nr.title) = false := by
      rw [List.any_eq_false]
      intro r hr hc
      rw [Bool.and_eq_true] at hc
      exact h3 r hr ⟨beq_iff_eq.1 hc.1, beq_iff_eq.1 hc.2⟩
    simp [reviewCreate, h1, h2, hany]
  · intro hinv
    by_cases hs : 1 ≤ nr.score ∧ nr.score ≤ 10
    · cases hany : existing.any (fun s => s.author == nr.author && s.title == nr.title) with
      | true => simpa [reviewCreate, hs, hany] using hinv
      | false =>
          have h2 : (reviewCreate existing nr).2 = existing ++ [nr] := by
            simp [reviewCreate, hs, hany]
          rw [h2]
          unfold atMostOneReviewPerPair
          refine List.pairwise_append.2 ⟨hinv, List.pairwise_singleton _ _, ?_⟩
          intro r hr s hsmem
          rw [List.mem_singleton] at hsmem
          subst hsmem
          intro hc
          have := List.any_eq_false.1 hany r hr
          simp [hc.1, hc.2] at this
    · simpa [reviewCreate, hs] using hinv

/-- Claim C8 instance: a review by a new author on an already reviewed
title passes validation and is appended. -/
theorem review_unique_per_author_title_witness :
    reviewCreate reviews0 reviewByOther = (none, reviews0 ++ [reviewByOther]) :=
  (review_unique_per_author_title reviews0 reviewByOther).2.1 (by decide) (by decide) (by decide)

end YaMDb
